import Mathlib

/-!
# rgetserver: the submission and render handlers

A shallow embedding of `rgetserver/rgetserver.go`.  The two handlers
`Server.ReleaseHandler` and `Server.APIHandler` are written as pure functions
that take the server state (`Server`), a response writer and a request, and
return a `Run`: the response written, the server state afterwards, the ordered
list of external calls made (`Event`) and whether the process was terminated
by `os.Exit`.

The collaborators outside `rgetserver.go` (domain resolver, manifest parser,
network, store faults) are the fields of `Env`.
-/

namespace Rget

/-! ## Data -/

/-- Go `[]byte`. -/
abbrev Bytes := List (Fin 256)

/-- The value of `http.StatusOK`. -/
def StatusOK : Nat := 200

/-- The value of `http.StatusBadRequest`. -/
def StatusBadRequest : Nat := 400

/-- The value of `http.StatusInternalServerError`. -/
def StatusInternalServerError : Nat := 500

/-- Go `strings.TrimSuffix`: `s` without the trailing `suffix`, or `s` itself
when it does not end in `suffix`. -/
def TrimSuffix (s suffix : String) : String :=
  if suffix.data.isSuffixOf s.data then
    ⟨s.data.take (s.data.length - suffix.data.length)⟩
  else s

/-- Go `url.Values` after `ParseForm`: the decoded form fields in order. -/
abbrev Values := List (String × List String)

/-- Go `url.Values.Get`: the first value associated with the key, or the empty
string when there is none. -/
def Values.Get (v : Values) (key : String) : String :=
  match v.lookup key with
  | some (x :: _) => x
  | _ => ""

/-- The parts of `*http.Request` the handlers read: the method, the `Host`
and the outcome of `req.ParseForm()` (an error message, or the form). -/
structure Request where
  Method : String
  Host : String
  ParseForm : Except String Values

/-- The parts of `http.ResponseWriter` the handlers drive: the status line, once
written, and the body written so far. -/
structure ResponseWriter where
  status : Option Nat
  body : String
deriving DecidableEq, Repr

/-- The writer the HTTP server hands to a handler: nothing written yet. -/
def ResponseWriter.fresh : ResponseWriter := { status := none, body := "" }

/-- Go `ResponseWriter.WriteHeader`: the first call fixes the status. -/
def ResponseWriter.WriteHeader (w : ResponseWriter) (code : Nat) : ResponseWriter :=
  match w.status with
  | none => { w with status := some code }
  | some _ => w

/-- Go `ResponseWriter.Write`: an implicit `WriteHeader(StatusOK)` when no header
was written, then the data is appended to the body. -/
def ResponseWriter.Write (w : ResponseWriter) (s : String) : ResponseWriter :=
  let w1 := w.WriteHeader StatusOK
  { w1 with body := w1.body ++ s }

/-- Go `http.Error`: writes the status code, then the message and a newline. -/
def httpError (w : ResponseWriter) (msg : String) (code : Nat) : ResponseWriter :=
  (w.WriteHeader code).Write (msg ++ "\n")

/-- The error of a store read: the distinguished miss, or any other failure. -/
inductive CacheError where
  | ErrCacheMiss
  | other (msg : String)
deriving DecidableEq, Repr

/-- Modelled from the spec: the `gitcache` package (type `GitCache` with its
methods `Get` and `Put`) is not part of `rgetserver.go`.  The spec describes it
as a key/value store "keyed by derived identity strings" holding "the raw
manifest bytes, stored verbatim under the Store Key".  The state is the list of
records, newest first. -/
structure GitCache where
  files : List (String × Bytes)
deriving DecidableEq, Repr

/-- The record stored under a key, if any. -/
def GitCache.lookup (c : GitCache) (name : String) : Option Bytes :=
  c.files.lookup name

/-- Modelled from the spec: `GitCache.Get` is not part of `rgetserver.go`.
"Get(ctx, key) -> (bytes, error) where a specific not-found condition
distinguishes absence from other errors".  `fault` is a read failure injected by
the environment for this call, if any. -/
def GitCache.Get (c : GitCache) (fault : Option String) (name : String) :
    Except CacheError Bytes :=
  match fault with
  | some e => .error (.other e)
  | none =>
    match c.lookup name with
    | some data => .ok data
    | none => .error .ErrCacheMiss

/-- Modelled from the spec: `GitCache.Put` is not part of `rgetserver.go`.
"Put(ctx, key, bytes) -> error"; a successful write stores the bytes verbatim
under the key, a failed write "must not mark the key as present".  `fault` is a
write failure injected by the environment for this call, if any. -/
def GitCache.Put (c : GitCache) (fault : Option String) (name : String) (data : Bytes) :
    GitCache × Option String :=
  match fault with
  | some e => (c, some e)
  | none => ({ files := (name, data) :: c.files.filter (fun kv => kv.1 != name) }, none)

/-- The labelled counter `*prometheus.CounterVec`: the count per
(method, name) label pair. -/
abbrev CounterVec := String → String → Nat

/-- Go `c.WithLabelValues(method, name).Inc()`. -/
def CounterVec.Inc (c : CounterVec) (method name : String) : CounterVec :=
  fun m n => if m = method ∧ n = name then c m n + 1 else c m n

/-- Go `type Server struct`: the embedded store and the request counter. -/
structure Server where
  GitCache : GitCache
  ProjReqs : CounterVec

/-- What `http.Get(url)` followed by `ioutil.ReadAll(response.Body)` gives. -/
inductive Fetch where
  | getError (err : String)
  | readError (err : String)
  | body (data : Bytes)
deriving DecidableEq, Repr

/-- Modelled from the spec: `rgetwellknown.TrimDigestDomain` is not part of
`rgetserver.go`.  "ResolveHostIdentifier(host) -> (shortName, error)"; on a
resolution failure "rendering proceeds with an empty identifier".  `resolve`
is the resolver's verdict on the host: an error message or the short name. -/
def TrimDigestDomain (resolve : String → Except String String) (host : String) :
    String × Option String :=
  match resolve host with
  | .ok short => (short, none)
  | .error e => ("", some e)

/-- The collaborators of the handlers that live outside `rgetserver.go`. -/
structure Env where
  /-- The result of `rgetwellknown.Domain(url)`: an error, or the domain. -/
  Domain : String → Except String String
  /-- The verdict of the host resolver behind `rgetwellknown.TrimDigestDomain`. -/
  resolveHost : String → Except String String
  /-- The constant `rgetwellknown.PublicServiceHost`. -/
  PublicServiceHost : String
  /-- The network: `http.Get` and reading the body. -/
  httpGet : String → Fetch
  /-- The result of `rgethash.FromSHA256SumFile(string(data)).Domain()`. -/
  sumsDomain : Bytes → String
  /-- A failure of the store read of a key other than the miss, if any. -/
  getFault : String → Option String
  /-- A failure of the store write of a record, if any. -/
  putFault : String → Bytes → Option String

/-- The external calls a handler makes, in order. -/
inductive Event where
  /-- Text printed on standard output by `fmt.Printf`. -/
  | print (msg : String)
  /-- A call of `rgetwellknown.TrimDigestDomain`. -/
  | trimDigestDomain (host : String)
  /-- A call of `rgetwellknown.Domain`. -/
  | domain (url : String)
  /-- A call of `ProjReqs.WithLabelValues(method, name).Inc()`. -/
  | inc (method name : String)
  /-- A call of `http.Get`. -/
  | httpGet (url : String)
  /-- A call of `GitCache.Get` and whether it returned a nil error. -/
  | cacheGet (name : String) (hit : Bool)
  /-- A call of `GitCache.Put` and the error it returned. -/
  | cachePut (name : String) (data : Bytes) (err : Option String)
  /-- A call of `os.Exit`. -/
  | exit (code : Nat)
deriving DecidableEq, Repr

/-- The outcome of one handler invocation. -/
structure Run where
  /-- The response writer when the handler stopped. -/
  resp : ResponseWriter
  /-- The server state when the handler stopped. -/
  server : Server
  /-- The external calls made, in order. -/
  trace : List Event
  /-- The exit status when the handler terminated the process. -/
  exit : Option Nat

/-! ## The handlers -/

/-- `func (r Server) ReleaseHandler(resp http.ResponseWriter, req *http.Request)`. -/
def ReleaseHandler (env : Env) (r : Server) (resp : ResponseWriter) (req : Request) : Run :=
  if req.Method ≠ "GET" then
    { resp := httpError resp "only GET is supported" StatusBadRequest,
      server := r, trace := [], exit := none }
  else
    let res := TrimDigestDomain env.resolveHost req.Host
    let short := res.1
    let t1 : List Event := [.trimDigestDomain req.Host] ++
      (match res.2 with
       | some err =>
         [.print ("request for unknown host " ++ req.Host ++ " unable to parse: " ++ err ++ "\n")]
       | none => [])
    let r1 : Server :=
      if short.length > 0 then { r with ProjReqs := r.ProjReqs.Inc req.Method short } else r
    let t2 : List Event :=
      if short.length > 0 then t1 ++ [.inc req.Method short] else t1
    let full := TrimSuffix req.Host ("." ++ env.PublicServiceHost)
    let resp1 := resp.Write ("<h2>" ++ short ++ "</h2>")
    let resp2 := resp1.Write
      ("<a href=\"https://github.com/merklecounty/records/blob/master/" ++ full ++
        "\">Merkle County Record</a>")
    { resp := resp2, server := r1, trace := t2, exit := none }

/-- `func (r Server) APIHandler(resp http.ResponseWriter, req *http.Request)`. -/
def APIHandler (env : Env) (r : Server) (resp : ResponseWriter) (req : Request) : Run :=
  if req.Method ≠ "POST" then
    { resp := httpError resp "only POST is supported" StatusBadRequest,
      server := r, trace := [], exit := none }
  else
    match req.ParseForm with
    | .error _ =>
      { resp := httpError resp "invalid request" StatusBadRequest,
        server := r, trace := [], exit := none }
    | .ok form =>
      let sumsURL := Values.Get form "url"
      let t1 : List Event := [.print ("submission: " ++ sumsURL ++ "\n"), .domain sumsURL]
      match env.Domain sumsURL with
      | .error err =>
        { resp := resp.WriteHeader StatusOK, server := r,
          trace := t1 ++ [.print ("wellknown domain error: " ++ err ++ "\n")], exit := none }
      | .ok domain =>
        let r1 : Server := { r with ProjReqs := r.ProjReqs.Inc req.Method domain }
        let t2 := t1 ++ [.inc req.Method domain, .httpGet sumsURL]
        match env.httpGet sumsURL with
        | .getError err =>
          { resp := resp, server := r1, trace := t2 ++ [.print err, .exit 1], exit := some 1 }
        | .readError err =>
          { resp := resp, server := r1, trace := t2 ++ [.print err, .exit 1], exit := some 1 }
        | .body sha256file =>
          let sumsDom := env.sumsDomain sha256file
          match r1.GitCache.Get (env.getFault sumsDom) sumsDom with
          | .ok _ =>
            { resp := resp.WriteHeader StatusOK, server := r1,
              trace := t2 ++ [.cacheGet sumsDom true, .print ("cache hit: " ++ sumsURL ++ "\n")],
              exit := none }
          | .error _ =>
            let ctdomain := sumsDom ++ "." ++ domain
            let put := r1.GitCache.Put (env.putFault ctdomain sha256file) ctdomain sha256file
            let r2 : Server := { r1 with GitCache := put.1 }
            let t3 := t2 ++ [.cacheGet sumsDom false, .cachePut ctdomain sha256file put.2]
            match put.2 with
            | some err =>
              { resp := httpError resp "internal service error" StatusInternalServerError,
                server := r2, trace := t3 ++ [.print ("git put error: " ++ err)], exit := none }
            | none =>
              { resp := resp.WriteHeader StatusOK, server := r2, trace := t3, exit := none }

/-! ## Reading a trace -/

/-- The event is a call of `GitCache.Put`. -/
def Event.isPut : Event → Bool
  | .cachePut _ _ _ => true
  | _ => false

/-- The event is a call of `GitCache.Get`. -/
def Event.isGet : Event → Bool
  | .cacheGet _ _ => true
  | _ => false

/-- The event is a call of `http.Get`. -/
def Event.isFetch : Event → Bool
  | .httpGet _ => true
  | _ => false

/-- The event is an increment of the request counter. -/
def Event.isInc : Event → Bool
  | .inc _ _ => true
  | _ => false

/-- The event is a call of `GitCache.Put` for the key that returned no error. -/
def Event.isSuccessfulPut (name : String) : Event → Bool
  | .cachePut n _ none => n == name
  | _ => false

/-- The number of calls of `GitCache.Put` for the key that returned no error. -/
def successfulPuts (name : String) (t : List Event) : Nat :=
  (t.filter (Event.isSuccessfulPut name)).length

/-- The server handling submissions one after the other: each request is served
by `APIHandler` on a fresh response writer in the state its predecessor left,
and nothing is served after the process exited. -/
def serve (r : Server) : List (Env × Request) → List Run
  | [] => []
  | (env, req) :: rest =>
    let run := APIHandler env r ResponseWriter.fresh req
    match run.exit with
    | some _ => [run]
    | none => run :: serve run.server rest

/-! ## Concrete inputs -/

/-- A server with an empty store and all counters at zero. -/
def emptyServer : Server := { GitCache := { files := [] }, ProjReqs := fun _ _ => 0 }

/-- A submission of `http://example.org/SHA256SUMS`. -/
def submitReq : Request :=
  { Method := "POST", Host := "rget.example",
    ParseForm := .ok [("url", ["http://example.org/SHA256SUMS"])] }

/-- An environment in which the submitted URL resolves to `example.org`, the
fetch returns three bytes, their manifest identity is `abc123`, every other
URL and every host is unknown, and the store never fails. -/
def exampleEnv : Env :=
  { Domain := fun url =>
      if url = "http://example.org/SHA256SUMS" then .ok "example.org"
      else .error "unknown domain",
    resolveHost := fun _ => .error "unknown host",
    PublicServiceHost := "rget.example",
    httpGet := fun _ => .body [1, 2, 3],
    sumsDomain := fun _ => "abc123",
    getFault := fun _ => none,
    putFault := fun _ _ => none }

/-- The environment `exampleEnv` with a store whose every write fails. -/
def putFailEnv : Env := { exampleEnv with putFault := fun _ _ => some "push rejected" }

/-- The environment `exampleEnv` with a store whose every read fails with an
error that is not the miss. -/
def getFailEnv : Env := { exampleEnv with getFault := fun _ => some "read error" }

/-- The environment `exampleEnv` with a network on which every `http.Get`
fails. -/
def offlineEnv : Env := { exampleEnv with httpGet := fun _ => .getError "no route to host" }

/-- A server whose store already holds the record of the example submission
under its Store Key `abc123.example.org`. -/
def storedServer : Server :=
  { GitCache := { files := [("abc123.example.org", [1, 2, 3])] }, ProjReqs := fun _ _ => 0 }

/-- A render request for a host the resolver does not know. -/
def renderReq : Request := { Method := "GET", Host := "nowhere.test", ParseForm := .ok [] }

/-! ## The store model -/

/-- Dropping the records of one key leaves the lookup of every other key as it
was. -/
theorem lookup_filter_other (l : List (String × Bytes)) (k k' : String) (h : k' ≠ k) :
    (l.filter (fun kv => kv.1 != k)).lookup k' = l.lookup k' := by
  induction l with
  | nil => rfl
  | cons a tl ih =>
    obtain ⟨a1, a2⟩ := a
    by_cases hk : a1 = k
    · subst hk
      have h1 : (k' == a1) = false := by simpa using h
      simp [List.filter, List.lookup, h1, ih]
    · have h1 : (a1 != k) = true := by simpa using hk
      simp only [List.filter, h1, List.lookup]
      split <;> simp_all

/-- A successful `Put` stores the bytes under the key. -/
theorem Put_lookup_self (c : GitCache) (k : String) (b : Bytes) :
    (c.Put none k b).1.lookup k = some b := by
  simp [GitCache.Put, GitCache.lookup, List.lookup]

/-- A successful `Put` leaves every other key as it was. -/
theorem Put_lookup_other (c : GitCache) (k k' : String) (b : Bytes) (h : k' ≠ k) :
    (c.Put none k b).1.lookup k' = c.lookup k' := by
  have h1 : (k' == k) = false := by simpa using h
  simp [GitCache.Put, GitCache.lookup, List.lookup, h1, lookup_filter_other _ _ _ h]

/-! ## Wrong method -/

/-- C5: a request to `APIHandler` whose method is not POST, and a request to
`ReleaseHandler` whose method is not GET, is answered with status 400; the
server state (request counter and store) is the one before the request and the
handler makes no external call at all: no counter increment, no store `Get` or
`Put`, no domain resolution and no network fetch. -/
theorem wrong_method_rejected (env : Env) (r : Server) (req : Request) :
    (req.Method ≠ "POST" →
      (APIHandler env r ResponseWriter.fresh req).resp.status = some 400 ∧
      (APIHandler env r ResponseWriter.fresh req).server = r ∧
      (APIHandler env r ResponseWriter.fresh req).trace = [] ∧
      (APIHandler env r ResponseWriter.fresh req).exit = none) ∧
    (req.Method ≠ "GET" →
      (ReleaseHandler env r ResponseWriter.fresh req).resp.status = some 400 ∧
      (ReleaseHandler env r ResponseWriter.fresh req).server = r ∧
      (ReleaseHandler env r ResponseWriter.fresh req).trace = [] ∧
      (ReleaseHandler env r ResponseWriter.fresh req).exit = none) := by
  constructor
  · intro h
    simp [APIHandler, h, httpError, ResponseWriter.Write, ResponseWriter.WriteHeader,
      ResponseWriter.fresh, StatusBadRequest]
  · intro h
    simp [ReleaseHandler, h, httpError, ResponseWriter.Write, ResponseWriter.WriteHeader,
      ResponseWriter.fresh, StatusBadRequest]

/-- C5 at concrete requests: a GET sent to `APIHandler` and a POST sent to
`ReleaseHandler`. -/
theorem wrong_method_rejected_witness :
    ((APIHandler exampleEnv emptyServer ResponseWriter.fresh
        { submitReq with Method := "GET" }).resp.status = some 400 ∧
      (APIHandler exampleEnv emptyServer ResponseWriter.fresh
        { submitReq with Method := "GET" }).trace = []) ∧
    ((ReleaseHandler exampleEnv emptyServer ResponseWriter.fresh submitReq).resp.status
        = some 400 ∧
      (ReleaseHandler exampleEnv emptyServer ResponseWriter.fresh submitReq).trace = []) :=
  ⟨let h := (wrong_method_rejected exampleEnv emptyServer
      { submitReq with Method := "GET" }).1 (by decide)
   ⟨h.1, h.2.2.1⟩,
   let h := (wrong_method_rejected exampleEnv emptyServer submitReq).2 (by decide)
   ⟨h.1, h.2.2.1⟩⟩

/-! ## Unknown domain -/

/-- C4: a POST with a well-formed form whose url fails domain resolution is
answered with status 200; the handler makes no network fetch, no store `Get`
and no store `Put`, the store is unchanged and the request counter is not
incremented. -/
theorem APIHandler_unknown_domain (env : Env) (r : Server) (req : Request)
    (form : Values) (err : String)
    (hm : req.Method = "POST") (hf : req.ParseForm = .ok form)
    (hd : env.Domain (Values.Get form "url") = .error err) :
    (APIHandler env r ResponseWriter.fresh req).resp.status = some 200 ∧
    (APIHandler env r ResponseWriter.fresh req).exit = none ∧
    (APIHandler env r ResponseWriter.fresh req).server.GitCache = r.GitCache ∧
    (APIHandler env r ResponseWriter.fresh req).server.ProjReqs = r.ProjReqs ∧
    (∀ e ∈ (APIHandler env r ResponseWriter.fresh req).trace,
      e.isFetch = false ∧ e.isGet = false ∧ e.isPut = false ∧ e.isInc = false) := by
  simp [APIHandler, hm, hf, hd, ResponseWriter.WriteHeader, ResponseWriter.fresh, StatusOK,
    Event.isFetch, Event.isGet, Event.isPut, Event.isInc]

/-- C4 at a concrete request: a submission of a URL the resolver rejects. -/
theorem APIHandler_unknown_domain_witness :
    exampleEnv.Domain (Values.Get [("url", ["http://nowhere.test/x"])] "url")
      = .error "unknown domain" ∧
    (APIHandler exampleEnv emptyServer ResponseWriter.fresh
      { submitReq with ParseForm := .ok [("url", ["http://nowhere.test/x"])] }).resp.status
      = some 200 ∧
    (APIHandler exampleEnv emptyServer ResponseWriter.fresh
      { submitReq with ParseForm := .ok [("url", ["http://nowhere.test/x"])] }).server.GitCache
      = emptyServer.GitCache :=
  let h := APIHandler_unknown_domain exampleEnv emptyServer
    { submitReq with ParseForm := .ok [("url", ["http://nowhere.test/x"])] }
    [("url", ["http://nowhere.test/x"])] "unknown domain" rfl rfl rfl
  ⟨rfl, h.1, h.2.2.1⟩

/-! ## Fetch failure -/

/-- C10: a POST with a well-formed form whose url resolves to a known domain
and whose network GET fails, or whose body cannot be read, terminates the
process with exit status 1: no response is written, and the exit comes before
any store `Get` or `Put`, so the store is unchanged. -/
theorem APIHandler_fetch_failure (env : Env) (r : Server) (req : Request)
    (form : Values) (d err : String)
    (hm : req.Method = "POST") (hf : req.ParseForm = .ok form)
    (hd : env.Domain (Values.Get form "url") = .ok d)
    (hg : env.httpGet (Values.Get form "url") = .getError err ∨
      env.httpGet (Values.Get form "url") = .readError err) :
    (APIHandler env r ResponseWriter.fresh req).exit = some 1 ∧
    (APIHandler env r ResponseWriter.fresh req).resp = ResponseWriter.fresh ∧
    (APIHandler env r ResponseWriter.fresh req).server.GitCache = r.GitCache ∧
    (APIHandler env r ResponseWriter.fresh req).trace.getLast? = some (.exit 1) ∧
    (∀ e ∈ (APIHandler env r ResponseWriter.fresh req).trace,
      e.isGet = false ∧ e.isPut = false) := by
  rcases hg with hg | hg <;>
    simp [APIHandler, hm, hf, hd, hg, Event.isGet, Event.isPut]

/-- C10 at a concrete request: the example submission on a network where
`http.Get` fails. -/
theorem APIHandler_fetch_failure_witness :
    offlineEnv.httpGet (Values.Get [("url", ["http://example.org/SHA256SUMS"])] "url")
      = .getError "no route to host" ∧
    (APIHandler offlineEnv emptyServer ResponseWriter.fresh submitReq).exit = some 1 ∧
    (APIHandler offlineEnv emptyServer ResponseWriter.fresh submitReq).server.GitCache
      = emptyServer.GitCache :=
  let h := APIHandler_fetch_failure offlineEnv emptyServer submitReq
    [("url", ["http://example.org/SHA256SUMS"])] "example.org" "no route to host"
    rfl rfl rfl (Or.inl rfl)
  ⟨rfl, h.1, h.2.2.1⟩

/-! ## Request counter -/

/-- C9: a POST with a well-formed form whose url resolves to domain `d` and
whose fetch succeeds increments the request counter of the label
`("POST", d)` by exactly one and changes no other label, whatever the store
answers: the request ends with status 200 (cache hit or successful write) or
500 (write failure), and the counter is the same in each case. -/
theorem APIHandler_counter (env : Env) (r : Server) (req : Request)
    (form : Values) (d : String) (b : Bytes)
    (hm : req.Method = "POST") (hf : req.ParseForm = .ok form)
    (hd : env.Domain (Values.Get form "url") = .ok d)
    (hg : env.httpGet (Values.Get form "url") = .body b) :
    (∀ m n, (APIHandler env r ResponseWriter.fresh req).server.ProjReqs m n =
      r.ProjReqs m n + (if m = "POST" ∧ n = d then 1 else 0)) ∧
    (APIHandler env r ResponseWriter.fresh req).trace.filter Event.isInc = [.inc "POST" d] ∧
    (APIHandler env r ResponseWriter.fresh req).exit = none ∧
    ((APIHandler env r ResponseWriter.fresh req).resp.status = some 200 ∨
      (APIHandler env r ResponseWriter.fresh req).resp.status = some 500) := by
  have hinc : ∀ m n, CounterVec.Inc r.ProjReqs "POST" d m n =
      r.ProjReqs m n + (if m = "POST" ∧ n = d then 1 else 0) := by
    intro m n
    unfold CounterVec.Inc
    split <;> simp_all
  simp only [APIHandler, hm, hf, hd, hg]
  simp only [ne_eq, not_true_eq_false, if_false]
  split
  · simp [hinc, Event.isInc, List.filter, ResponseWriter.WriteHeader, ResponseWriter.fresh,
      StatusOK]
  · split
    · simp [hinc, Event.isInc, List.filter, ResponseWriter.WriteHeader, ResponseWriter.fresh,
        ResponseWriter.Write, httpError, StatusInternalServerError]
    · simp [hinc, Event.isInc, List.filter, ResponseWriter.WriteHeader, ResponseWriter.fresh,
        StatusOK]

/-- C9 at a concrete request: the example submission raises the counter of
`("POST", "example.org")` from 0 to 1 and leaves `("GET", "example.org")` at 0. -/
theorem APIHandler_counter_witness :
    (APIHandler exampleEnv emptyServer ResponseWriter.fresh submitReq).server.ProjReqs
      "POST" "example.org" = 1 ∧
    (APIHandler exampleEnv emptyServer ResponseWriter.fresh submitReq).server.ProjReqs
      "GET" "example.org" = 0 :=
  let h := APIHandler_counter exampleEnv emptyServer submitReq
    [("url", ["http://example.org/SHA256SUMS"])] "example.org" [1, 2, 3] rfl rfl rfl rfl
  ⟨h.1 "POST" "example.org", h.1 "GET" "example.org"⟩

/-! ## The write path -/

/-- The run of a submission that passes the fetch and whose store read returns
an error: the handler writes the raw bytes under the identity domain, a dot
and the submission domain, and answers by the outcome of that write. -/
theorem APIHandler_miss (env : Env) (r : Server) (req : Request)
    (form : Values) (d : String) (b : Bytes) (ce : CacheError)
    (hm : req.Method = "POST") (hf : req.ParseForm = .ok form)
    (hd : env.Domain (Values.Get form "url") = .ok d)
    (hg : env.httpGet (Values.Get form "url") = .body b)
    (hget : r.GitCache.Get (env.getFault (env.sumsDomain b)) (env.sumsDomain b) = .error ce) :
    (APIHandler env r ResponseWriter.fresh req).exit = none ∧
    (APIHandler env r ResponseWriter.fresh req).server.GitCache =
      (r.GitCache.Put (env.putFault (env.sumsDomain b ++ "." ++ d) b)
        (env.sumsDomain b ++ "." ++ d) b).1 ∧
    (APIHandler env r ResponseWriter.fresh req).trace.filter Event.isGet =
      [.cacheGet (env.sumsDomain b) false] ∧
    (APIHandler env r ResponseWriter.fresh req).trace.filter Event.isPut =
      [.cachePut (env.sumsDomain b ++ "." ++ d) b
        (env.putFault (env.sumsDomain b ++ "." ++ d) b)] ∧
    (APIHandler env r ResponseWriter.fresh req).resp.status =
      some (if env.putFault (env.sumsDomain b ++ "." ++ d) b = none then 200 else 500) := by
  simp only [APIHandler, hm, hf, hd, hg, hget]
  simp only [ne_eq, not_true_eq_false, if_false]
  cases hp : env.putFault (env.sumsDomain b ++ "." ++ d) b with
  | none =>
    simp [GitCache.Put, Event.isGet, Event.isPut, List.filter, ResponseWriter.WriteHeader,
      ResponseWriter.fresh, StatusOK]
  | some e =>
    simp [GitCache.Put, Event.isGet, Event.isPut, List.filter, ResponseWriter.WriteHeader,
      ResponseWriter.fresh, ResponseWriter.Write, httpError, StatusInternalServerError]

/-- C1: a first-time submission (POST, well-formed form, url resolving to `d`,
fetch returning the bytes `b`, manifest identity domain `i`, store read
reporting the miss, successful write) is answered with status 200, and
afterwards the store holds exactly the bytes `b` under the key `i ++ "." ++ d`;
every other key is as before and the one `Put` of the request is the one for
that key. -/
theorem APIHandler_first_submission (env : Env) (r : Server) (req : Request)
    (form : Values) (d : String) (b : Bytes)
    (hm : req.Method = "POST") (hf : req.ParseForm = .ok form)
    (hd : env.Domain (Values.Get form "url") = .ok d)
    (hg : env.httpGet (Values.Get form "url") = .body b)
    (habs : r.GitCache.Get (env.getFault (env.sumsDomain b)) (env.sumsDomain b)
      = .error .ErrCacheMiss)
    (hput : env.putFault (env.sumsDomain b ++ "." ++ d) b = none) :
    (APIHandler env r ResponseWriter.fresh req).resp.status = some 200 ∧
    (APIHandler env r ResponseWriter.fresh req).exit = none ∧
    (APIHandler env r ResponseWriter.fresh req).server.GitCache.lookup
      (env.sumsDomain b ++ "." ++ d) = some b ∧
    (∀ k, k ≠ env.sumsDomain b ++ "." ++ d →
      (APIHandler env r ResponseWriter.fresh req).server.GitCache.lookup k
        = r.GitCache.lookup k) ∧
    (APIHandler env r ResponseWriter.fresh req).trace.filter Event.isPut =
      [.cachePut (env.sumsDomain b ++ "." ++ d) b none] := by
  obtain ⟨hx, hs, _, hp, hst⟩ := APIHandler_miss env r req form d b _ hm hf hd hg habs
  rw [hput] at hs hp hst
  refine ⟨by simpa using hst, hx, ?_, ?_, hp⟩
  · rw [hs]; exact Put_lookup_self _ _ _
  · intro k hk
    rw [hs]; exact Put_lookup_other _ _ _ _ hk

/-- C1 at the concrete submission of the spec: domain `example.org`, identity
`abc123`, Store Key `abc123.example.org`. -/
theorem APIHandler_first_submission_witness :
    exampleEnv.sumsDomain [1, 2, 3] ++ "." ++ "example.org" = "abc123.example.org" ∧
    emptyServer.GitCache.Get (exampleEnv.getFault "abc123") "abc123" = .error .ErrCacheMiss ∧
    (APIHandler exampleEnv emptyServer ResponseWriter.fresh submitReq).resp.status = some 200 ∧
    (APIHandler exampleEnv emptyServer ResponseWriter.fresh submitReq).server.GitCache.lookup
      "abc123.example.org" = some [1, 2, 3] :=
  let h := APIHandler_first_submission exampleEnv emptyServer submitReq
    [("url", ["http://example.org/SHA256SUMS"])] "example.org" [1, 2, 3] rfl rfl rfl rfl rfl rfl
  ⟨by decide, rfl, h.1, h.2.2.1⟩

/-- C6: a submission that reaches the write on a new key (store read reporting
the miss) and whose `Put` returns an error is answered with status 500 and
leaves the store as it was; the same submission sent again to the resulting
server reads the store, misses again, attempts the `Put` again and is again
answered with 500: it is not a cache hit. -/
theorem APIHandler_put_failure (env : Env) (r : Server) (req : Request)
    (form : Values) (d e : String) (b : Bytes)
    (hm : req.Method = "POST") (hf : req.ParseForm = .ok form)
    (hd : env.Domain (Values.Get form "url") = .ok d)
    (hg : env.httpGet (Values.Get form "url") = .body b)
    (habs : r.GitCache.Get (env.getFault (env.sumsDomain b)) (env.sumsDomain b)
      = .error .ErrCacheMiss)
    (hput : env.putFault (env.sumsDomain b ++ "." ++ d) b = some e) :
    (APIHandler env r ResponseWriter.fresh req).resp.status = some 500 ∧
    (APIHandler env r ResponseWriter.fresh req).exit = none ∧
    (APIHandler env r ResponseWriter.fresh req).server.GitCache = r.GitCache ∧
    (APIHandler env (APIHandler env r ResponseWriter.fresh req).server
        ResponseWriter.fresh req).trace.filter Event.isGet
      = [.cacheGet (env.sumsDomain b) false] ∧
    (APIHandler env (APIHandler env r ResponseWriter.fresh req).server
        ResponseWriter.fresh req).trace.filter Event.isPut
      = [.cachePut (env.sumsDomain b ++ "." ++ d) b (some e)] ∧
    (APIHandler env (APIHandler env r ResponseWriter.fresh req).server
        ResponseWriter.fresh req).resp.status = some 500 := by
  obtain ⟨hx, hs, _, _, hst⟩ := APIHandler_miss env r req form d b _ hm hf hd hg habs
  rw [hput] at hs hst
  have hs1 : (APIHandler env r ResponseWriter.fresh req).server.GitCache = r.GitCache := by
    rw [hs]; rfl
  have habs1 : (APIHandler env r ResponseWriter.fresh req).server.GitCache.Get
      (env.getFault (env.sumsDomain b)) (env.sumsDomain b) = .error .ErrCacheMiss := by
    rw [hs1]; exact habs
  obtain ⟨_, _, hg2, hp2, hst2⟩ := APIHandler_miss env
    (APIHandler env r ResponseWriter.fresh req).server req form d b _ hm hf hd hg habs1
  rw [hput] at hp2 hst2
  exact ⟨by simpa using hst, hx, hs1, hg2, hp2, by simpa using hst2⟩

/-- C6 at a concrete request: the example submission on a store that rejects
the write. -/
theorem APIHandler_put_failure_witness :
    putFailEnv.putFault "abc123.example.org" [1, 2, 3] = some "push rejected" ∧
    (APIHandler putFailEnv emptyServer ResponseWriter.fresh submitReq).resp.status
      = some 500 ∧
    (APIHandler putFailEnv emptyServer ResponseWriter.fresh submitReq).server.GitCache
      = emptyServer.GitCache :=
  let h := APIHandler_put_failure putFailEnv emptyServer submitReq
    [("url", ["http://example.org/SHA256SUMS"])] "example.org" "push rejected" [1, 2, 3]
    rfl rfl rfl rfl rfl rfl
  ⟨rfl, h.1, h.2.2.1⟩

/-! ## Store read errors -/

/-- C8 refuted at a concrete request: the example submission on a store whose
read fails with an error that is not the miss.  The handler does not treat the
error as a hit: it performs a `Put`. -/
theorem read_error_not_a_hit :
    submitReq.Method = "POST" ∧
    exampleEnv.Domain (Values.Get [("url", ["http://example.org/SHA256SUMS"])] "url")
      = .ok "example.org" ∧
    emptyServer.GitCache.Get (getFailEnv.getFault "abc123") "abc123"
      = .error (.other "read error") ∧
    ¬ ((APIHandler getFailEnv emptyServer ResponseWriter.fresh submitReq).resp.status
        = some 200 ∧
      (APIHandler getFailEnv emptyServer ResponseWriter.fresh submitReq).trace.filter
        Event.isPut = []) := by
  refine ⟨rfl, rfl, rfl, ?_⟩
  decide

/-- C8 as amended: a submission (POST, well-formed form, url resolving to `d`,
fetch returning `b`) whose store read returns an error other than the miss is
treated as a miss: the handler performs exactly one `Put`, of the bytes `b`
under the identity domain, a dot and `d`, and answers 200 when that write
succeeds and 500 when it fails. -/
theorem APIHandler_read_error (env : Env) (r : Server) (req : Request)
    (form : Values) (d e : String) (b : Bytes)
    (hm : req.Method = "POST") (hf : req.ParseForm = .ok form)
    (hd : env.Domain (Values.Get form "url") = .ok d)
    (hg : env.httpGet (Values.Get form "url") = .body b)
    (herr : r.GitCache.Get (env.getFault (env.sumsDomain b)) (env.sumsDomain b)
      = .error (.other e)) :
    (APIHandler env r ResponseWriter.fresh req).trace.filter Event.isPut =
      [.cachePut (env.sumsDomain b ++ "." ++ d) b
        (env.putFault (env.sumsDomain b ++ "." ++ d) b)] ∧
    (env.putFault (env.sumsDomain b ++ "." ++ d) b = none →
      (APIHandler env r ResponseWriter.fresh req).resp.status = some 200) ∧
    (env.putFault (env.sumsDomain b ++ "." ++ d) b ≠ none →
      (APIHandler env r ResponseWriter.fresh req).resp.status = some 500) ∧
    (APIHandler env r ResponseWriter.fresh req).exit = none := by
  obtain ⟨hx, _, _, hp, hst⟩ := APIHandler_miss env r req form d b _ hm hf hd hg herr
  refine ⟨hp, ?_, ?_, hx⟩
  · intro h; rw [hst]; simp [h]
  · intro h; rw [hst]; simp [h]

/-- C8 as amended, at a concrete request: the example submission on a store
whose read fails is written and answered with 200. -/
theorem APIHandler_read_error_witness :
    emptyServer.GitCache.Get (getFailEnv.getFault "abc123") "abc123"
      = .error (.other "read error") ∧
    (APIHandler getFailEnv emptyServer ResponseWriter.fresh submitReq).trace.filter
      Event.isPut = [.cachePut "abc123.example.org" [1, 2, 3] none] ∧
    (APIHandler getFailEnv emptyServer ResponseWriter.fresh submitReq).resp.status
      = some 200 :=
  let h := APIHandler_read_error getFailEnv emptyServer submitReq
    [("url", ["http://example.org/SHA256SUMS"])] "example.org" "read error" [1, 2, 3]
    rfl rfl rfl rfl rfl
  ⟨rfl, h.1, h.2.1 rfl⟩

/-! ## The render handler -/

/-- C7: a GET whose host fails resolution (`TrimDigestDomain` returns an
error) is never failed: the response has status 200, its body starts with the
heading of the empty identifier, `<h2></h2>`, and no counter is incremented. -/
theorem ReleaseHandler_unresolvable_host (env : Env) (r : Server) (req : Request)
    (e : String)
    (hm : req.Method = "GET")
    (hres : (TrimDigestDomain env.resolveHost req.Host).2 = some e) :
    (ReleaseHandler env r ResponseWriter.fresh req).resp.status = some 200 ∧
    (ReleaseHandler env r ResponseWriter.fresh req).exit = none ∧
    (∃ rest, (ReleaseHandler env r ResponseWriter.fresh req).resp.body
      = "<h2></h2>" ++ rest) ∧
    (ReleaseHandler env r ResponseWriter.fresh req).server.ProjReqs = r.ProjReqs ∧
    (∀ ev ∈ (ReleaseHandler env r ResponseWriter.fresh req).trace, ev.isInc = false) := by
  have hshort : TrimDigestDomain env.resolveHost req.Host = ("", some e) := by
    unfold TrimDigestDomain at hres ⊢
    cases hr : env.resolveHost req.Host with
    | ok short => rw [hr] at hres; simp at hres
    | error e1 => rw [hr] at hres; simp at hres; simp [hres]
  have hbody : ∀ t : String, "" ++ ("<h2>" ++ "" ++ "</h2>") ++ t = "<h2></h2>" ++ t := by
    intro t
    have : "" ++ ("<h2>" ++ "" ++ "</h2>") = "<h2></h2>" := by decide
    rw [this]
  simp only [ReleaseHandler, hm, hshort]
  simp only [ne_eq, not_true_eq_false, if_false]
  refine ⟨?_, trivial, ?_, ?_, ?_⟩
  · simp [ResponseWriter.Write, ResponseWriter.WriteHeader, ResponseWriter.fresh, StatusOK]
  · simp only [ResponseWriter.Write, ResponseWriter.WriteHeader, ResponseWriter.fresh]
    exact ⟨_, hbody _⟩
  · simp
  · simp [Event.isInc]

/-- C7 at a concrete request: a render request for a host the resolver does
not know. -/
theorem ReleaseHandler_unresolvable_host_witness :
    (TrimDigestDomain exampleEnv.resolveHost renderReq.Host).2 = some "unknown host" ∧
    (ReleaseHandler exampleEnv emptyServer ResponseWriter.fresh renderReq).resp.status
      = some 200 ∧
    (∃ rest, (ReleaseHandler exampleEnv emptyServer ResponseWriter.fresh renderReq).resp.body
      = "<h2></h2>" ++ rest) :=
  let h := ReleaseHandler_unresolvable_host exampleEnv emptyServer renderReq "unknown host"
    rfl rfl
  ⟨rfl, h.1, h.2.2.1⟩

/-! ## The existence check and the Store Key -/

/-- C2 evaluated at its failing input: the store already holds the Store Key
`abc123.example.org` of the example submission, yet the handler reads the key
`abc123`, misses, and performs the `Put` of `abc123.example.org` again. -/
theorem existing_key_written_again :
    storedServer.GitCache.lookup "abc123.example.org" = some [1, 2, 3] ∧
    (APIHandler exampleEnv storedServer ResponseWriter.fresh submitReq).trace.filter
      Event.isGet = [.cacheGet "abc123" false] ∧
    (APIHandler exampleEnv storedServer ResponseWriter.fresh submitReq).trace.filter
      Event.isPut = [.cachePut "abc123.example.org" [1, 2, 3] none] := by
  decide

/-- C3 evaluated at its failing input: the example submission sent twice to a
server with an empty store.  Both requests perform a successful `Put` of the
Store Key `abc123.example.org`; the second is not short-circuited. -/
theorem repeated_submission_written_twice :
    (serve emptyServer [(exampleEnv, submitReq), (exampleEnv, submitReq)]).map
      (fun run => successfulPuts "abc123.example.org" run.trace) = [1, 1] := by
  decide

end Rget
